import Mathlib

/-!
Shallow embedding of `ndsi/network.py` (pyndsi): the event interpreter and
sensor-registry state machine of `NetworkNode`, and the `Network` aggregator.

Modelling conventions:
* Python dicts are insertion-ordered association lists; the operations
  (`pyGet`, `pySet`, `pyDel`, `pyUpdate`) mirror `d.get`/`d[k] = v`/`del d[k]`
  /`d.update(p)` on dicts whose keys are unique.
* JSON scalar values carried in message payloads are modelled as opaque
  strings; nothing in `network.py` inspects them beyond equality.
* The transport (`Pyre`) is an external collaborator: a dequeued `PyreEvent`
  is modelled as a value handed to `handle_event`; socket plumbing (`start`,
  `stop`, `has_events`, `pyre_node`, `context`, `headers`, `name`) has no
  registry-visible effect and is omitted from the state.
* Decoding and JSON parsing of the first payload frame are stdlib
  collaborators; a `Frame` records which of their outcomes occurred.
* Python exceptions escaping a method are modelled with `Except PyErr`.
* Callbacks: the bound method `self.on_event` is the distinguished
  registry-mutating callback; external observer callbacks are opaque tags
  whose invocations are recorded in a `Trace`, in invocation order.
* `logger.warning` calls are recorded as `LogWarn` values; `logger.debug`
  output is not modelled.
-/

namespace Ndsi

/-- Python `dict.get(k)`: the binding of a key, if any. -/
def pyGet {α : Type} : List (String × α) → String → Option α
  | [], _ => none
  | (k', v) :: rest, k => if k' = k then some v else pyGet rest k

/-- Python `d[k] = v`: replace the binding in place, else append at the end. -/
def pySet {α : Type} : List (String × α) → String → α → List (String × α)
  | [], k, v => [(k, v)]
  | (k', v') :: rest, k, v =>
    if k' = k then (k, v) :: rest else (k', v') :: pySet rest k v

/-- Python `del d[k]` on the keys-unique dicts built here: drop the binding. -/
def pyDel {α : Type} : List (String × α) → String → List (String × α)
  | [], _ => []
  | (k', v') :: rest, k => if k' = k then rest else (k', v') :: pyDel rest k

/-- Python `d.update(p)`: assign every binding of `p` into `d`, in order. -/
def pyUpdate {α : Type} (d p : List (String × α)) : List (String × α) :=
  p.foldl (fun acc kv => pySet acc kv.1 kv.2) d

/-- A decoded JSON object with string keys and (opaque) scalar values. -/
abbrev Dict := List (String × String)

/-- `self.sensors`: the registry, a dict from sensor uuid to its record. -/
abbrev Registry := List (String × Dict)

/-- An entry of `self.callbacks`: either the node's own bound method
`self.on_event` (prepended by `__init__`) or an external observer. -/
inductive Callback where
  | onEvent : Callback
  | ext : Nat → Callback
deriving DecidableEq

/-- Invocation record: which callback was called with which event dict. -/
abbrev Trace := List (Callback × Dict)

/-- Python exceptions that can escape the modelled methods. -/
inductive PyErr where
  | keyError : String → PyErr
  | valueError : String → PyErr
  | unboundLocalError : String → PyErr
deriving DecidableEq

/-- `logger.warning` occurrences observable from `handle_event`. -/
inductive LogWarn where
  | malformedPayload : String → LogWarn
  | malformedMessage : Dict → LogWarn
  | outdatedVersion : LogWarn
  | newerVersion : LogWarn
deriving DecidableEq

/-- `PyreEvent.type` values distinguished by `handle_event`. -/
inductive EventType where
  | SHOUT
  | WHISPER
  | JOIN
  | EXIT
  | OTHER
deriving DecidableEq

/-- Outcome of `event.msg[0].decode()` followed by `json.loads`, the two
stdlib collaborators: the raw bytes are invalid text (`.decode()` raises
`UnicodeDecodeError`, a `ValueError`), or they decode to text that is not
valid JSON (`json.loads` raises `JSONDecodeError`), or to JSON that is not
an object (subscripting raises `TypeError`), or to a JSON object. -/
inductive Frame where
  | badBytes : Frame
  | badJson : String → Frame
  | nonDict : String → Frame
  | okDict : String → Dict → Frame
deriving DecidableEq

/-- A dequeued transport event, as `handle_event` reads it. -/
structure PyreEvent where
  type : EventType
  peer_uuid_hex : String
  peer_name : String
  msg : List Frame
  group : String
deriving DecidableEq

/-- Modelled from the spec: `DataFormat` lives in `ndsi.formatter`, which is
not under `src/`; the spec fixes a closed, statically known set of supported
wire formats with one discovery group per format (`pupil-mobile-v3`,
`pupil-mobile-v4`, per `group_name_from_format` in the source). -/
inductive DataFormat where
  | V3
  | V4
deriving DecidableEq

/-- Modelled from the spec: `DataFormat.supported_formats()`, the fixed,
statically known set of supported wire-format versions, in a fixed order. -/
def supported_formats : List DataFormat := [DataFormat.V3, DataFormat.V4]

/-- Modelled from the spec: `__protocol_version__` is defined in
`ndsi/__init__.py`, which is not under `src/`; the spec's Version Gate
examples use supported version `"4"`, matching the newest supported wire
format. The version-gate claims compare against this constant abstractly. -/
def __protocol_version__ : String := "4"

/-- Python `<` on strings: lexicographic by code point, element-wise, a
proper prefix comparing less. -/
def pyStrLtB : List Char → List Char → Bool
  | [], [] => false
  | [], _ :: _ => true
  | _ :: _, [] => false
  | a :: as, b :: bs => if a = b then pyStrLtB as bs else decide (a < b)

/-- `group_name_from_format` (total here because `DataFormat` is closed;
the source's trailing `ValueError` branch is unreachable). -/
def group_name_from_format : DataFormat → String
  | DataFormat.V3 => "pupil-mobile-v3"
  | DataFormat.V4 => "pupil-mobile-v4"

/-- State of one `NetworkNode` (transport plumbing omitted, see module
comment). `warned_once_older_version` models `_warned_once_older_version`,
likewise for the newer-version flag. -/
structure NetworkNode where
  format : DataFormat
  sensors : Registry
  callbacks : List Callback
  warned_once_older_version : Bool
  warned_once_newer_version : Bool
deriving DecidableEq

/-- `NetworkNode.__init__`: empty registry, `self.on_event` prepended to the
supplied callback list, both warning flags cleared. -/
def NetworkNode.init (format : DataFormat) (callbacks : List Callback) :
    NetworkNode :=
  { format := format
    sensors := []
    callbacks := Callback.onEvent :: callbacks
    warned_once_older_version := false
    warned_once_newer_version := false }

/-- `NetworkNode.on_event` (its `caller` argument is unused in the source),
acting on `self.sensors`. On `attach` it stores `event.copy()` minus the
`subject` key under `event['sensor_uuid']` (that subscript is outside any
`try`, so a missing key raises). On `detach`, `del self.sensors[...]` and the
`event['sensor_uuid']` subscript both sit inside `try ... except KeyError:
pass`, so a missing key is swallowed either way. -/
def on_event (sensors : Registry) (event : Dict) : Except PyErr Registry :=
  match pyGet event "subject" with
  | none => Except.error (PyErr.keyError "subject")
  | some subj =>
    if subj = "attach" then
      match pyGet event "sensor_uuid" with
      | none => Except.error (PyErr.keyError "sensor_uuid")
      | some u => Except.ok (pySet sensors u (pyDel event "subject"))
    else if subj = "detach" then
      match pyGet event "sensor_uuid" with
      | none => Except.ok sensors
      | some u => Except.ok (pyDel sensors u)
    else Except.ok sensors

/-- One `callback(self, event)` call: `self.on_event` mutates the registry,
an external callback observes only. -/
def runCallback (node : NetworkNode) (cb : Callback) (event : Dict) :
    Except PyErr NetworkNode :=
  match cb with
  | Callback.onEvent =>
    Except.map (fun s => { node with sensors := s }) (on_event node.sensors event)
  | Callback.ext _ => Except.ok node

/-- The loop body of `execute_callbacks`, over a snapshot of the callback
list, recording each completed invocation. -/
def execCbsGo (node : NetworkNode) (cbs : List Callback) (event : Dict)
    (tr : Trace) : Except PyErr (NetworkNode × Trace) :=
  match cbs with
  | [] => Except.ok (node, tr)
  | cb :: rest =>
    match runCallback node cb event with
    | Except.error e => Except.error e
    | Except.ok node' => execCbsGo node' rest event (tr ++ [(cb, event)])

/-- `NetworkNode.execute_callbacks`: call every callback in `self.callbacks`
with the event, in registration order. -/
def execute_callbacks (node : NetworkNode) (event : Dict) :
    Except PyErr (NetworkNode × Trace) :=
  execCbsGo node node.callbacks event []

/-- Outcome of the `try` block of `handle_event` for SHOUT/WHISPER together
with the handler it selects. `raisedUnbound` is the case where
`UnicodeDecodeError` (a `ValueError`) is raised before `msg` was assigned:
the `except (ValueError, KeyError)` handler is selected, and its
`'Malformatted message: ...'.format(msg)` references the unbound local
`msg`, raising `UnboundLocalError` out of `handle_event`. -/
inductive TryOutcome where
  | raisedUnbound : TryOutcome
  | warnPayload : String → TryOutcome
  | warnMsg : Dict → TryOutcome
  | debugDrop : TryOutcome
  | decoded : Dict → TryOutcome
deriving DecidableEq

/-- The two stamping assignments `msg['host_uuid'] = event.peer_uuid.hex`
and `msg['host_name'] = event.peer_name`, in source order. -/
def stampHost (m : Dict) (peer_uuid_hex peer_name : String) : Dict :=
  pySet (pySet m "host_uuid" peer_uuid_hex) "host_name" peer_name

/-- The `try` block of `handle_event` for SHOUT/WHISPER: pop and decode the
first frame, parse it, require `subject` and `sensor_uuid`, stamp the peer
identity. An empty `event.msg` raises `IndexError`, caught by the bare
`except Exception` (debug log, drop). A missing required key raises
`KeyError` with `msg` bound (warning with the message, drop). -/
def tryDecode (frames : List Frame) (peer_uuid_hex peer_name : String) :
    TryOutcome :=
  match frames with
  | [] => TryOutcome.debugDrop
  | f :: _ =>
    match f with
    | Frame.badBytes => TryOutcome.raisedUnbound
    | Frame.badJson payload => TryOutcome.warnPayload payload
    | Frame.nonDict _ => TryOutcome.debugDrop
    | Frame.okDict _ d =>
      match pyGet d "subject" with
      | none => TryOutcome.warnMsg d
      | some _ =>
        match pyGet d "sensor_uuid" with
        | none => TryOutcome.warnMsg d
        | some _ => TryOutcome.decoded (stampHost d peer_uuid_hex peer_name)

/-- Python truthiness of `self.sensors.get(uuid)`: `None` and the empty dict
are falsy, any non-empty dict is truthy. -/
def dictTruthy : Option Dict → Bool
  | none => false
  | some d => !d.isEmpty

/-- Python `'<group>'.split('-v')` specialised to the separator the source
passes: split on every non-overlapping occurrence of `-v`, left to right. -/
def splitDashV : List Char → List (List Char)
  | [] => [[]]
  | [c] => [[c]]
  | c1 :: c2 :: rest =>
    if c1 = '-' ∧ c2 = 'v' then
      ([] : List Char) :: splitDashV rest
    else
      match splitDashV (c2 :: rest) with
      | [] => [[c1]]
      | seg :: segs => (c1 :: seg) :: segs

/-- `event.group.split('-v')` as a list of strings. -/
def pySplitDashV (s : String) : List String :=
  (splitDashV s.data).map (fun l => String.mk l)

/-- `group_version[0]` in the JOIN branch (a split is never empty). -/
def joinBase (g : String) : String := (pySplitDashV g).headD ""

/-- `group_version[1] if len(group_version) > 1 else '0'`. -/
def joinVersion (g : String) : String := (pySplitDashV g).getD 1 "0"

/-- The EXIT loop of `handle_event`, over a snapshot of the registry's keys.
Each live lookup (`self.sensors[sensor_uuid]` and the record's
`'sensor_name'` / `'host_name'` fields, in the dict-literal's evaluation
order) raises `KeyError` if absent. -/
def exitLoop (gone_peer : String) :
    NetworkNode → List String → Except PyErr (NetworkNode × Trace)
  | node, [] => Except.ok (node, [])
  | node, sensor_uuid :: rest =>
    match pyGet node.sensors sensor_uuid with
    | none => Except.error (PyErr.keyError sensor_uuid)
    | some entry =>
      match pyGet entry "host_uuid" with
      | none => Except.error (PyErr.keyError "host_uuid")
      | some host =>
        if host = gone_peer then
          match pyGet entry "sensor_name" with
          | none => Except.error (PyErr.keyError "sensor_name")
          | some sensor_name =>
            match pyGet entry "host_name" with
            | none => Except.error (PyErr.keyError "host_name")
            | some host_name =>
              match execute_callbacks node
                  [("subject", "detach"), ("sensor_uuid", sensor_uuid),
                   ("sensor_name", sensor_name), ("host_uuid", host),
                   ("host_name", host_name)] with
              | Except.error e => Except.error e
              | Except.ok (node', tr) =>
                Except.map (fun p => (p.1, tr ++ p.2)) (exitLoop gone_peer node' rest)
        else exitLoop gone_peer node rest

/-- The loop of `NetworkNode.rejoin`, over a snapshot of
`list(self.sensors.items())`; the synthetic detach dict is built from the
snapshot record (field lookups in the dict-literal's evaluation order,
raising `KeyError` if absent). -/
def rejoinLoop :
    NetworkNode → List (String × Dict) → Except PyErr (NetworkNode × Trace)
  | node, [] => Except.ok (node, [])
  | node, (sensor_uuid, sensor) :: rest =>
    match pyGet sensor "sensor_name" with
    | none => Except.error (PyErr.keyError "sensor_name")
    | some sensor_name =>
      match pyGet sensor "host_uuid" with
      | none => Except.error (PyErr.keyError "host_uuid")
      | some host_uuid =>
        match pyGet sensor "host_name" with
        | none => Except.error (PyErr.keyError "host_name")
        | some host_name =>
          match execute_callbacks node
              [("subject", "detach"), ("sensor_uuid", sensor_uuid),
               ("sensor_name", sensor_name), ("host_uuid", host_uuid),
               ("host_name", host_name)] with
          | Except.error e => Except.error e
          | Except.ok (node', tr) =>
            Except.map (fun p => (p.1, tr ++ p.2)) (rejoinLoop node' rest)

/-- `NetworkNode.rejoin` (the trailing `pyre_node.leave`/`join` touch only
the transport and are not part of the modelled state). -/
def rejoin (node : NetworkNode) : Except PyErr (NetworkNode × Trace) :=
  rejoinLoop node node.sensors

/-- The SHOUT/WHISPER arm of `handle_event`: decode and validate, then
dispatch on `subject` with the de-dup checks against the registry. -/
def handleMessage (node : NetworkNode) (event : PyreEvent) :
    Except PyErr (NetworkNode × Trace × List LogWarn) :=
  match tryDecode event.msg event.peer_uuid_hex event.peer_name with
  | TryOutcome.raisedUnbound => Except.error (PyErr.unboundLocalError "msg")
  | TryOutcome.warnPayload p => Except.ok (node, [], [LogWarn.malformedPayload p])
  | TryOutcome.warnMsg d => Except.ok (node, [], [LogWarn.malformedMessage d])
  | TryOutcome.debugDrop => Except.ok (node, [], [])
  | TryOutcome.decoded msg =>
    if pyGet msg "subject" = some "attach" then
      if dictTruthy (pyGet node.sensors ((pyGet msg "sensor_uuid").getD "")) then
        Except.ok (node, [], [])
      else
        Except.map (fun p => (p.1, p.2, ([] : List LogWarn)))
          (execute_callbacks node msg)
    else if pyGet msg "subject" = some "detach" then
      let sensor_entry := pyGet node.sensors ((pyGet msg "sensor_uuid").getD "")
      if dictTruthy sensor_entry then
        Except.map (fun p => (p.1, p.2, ([] : List LogWarn)))
          (execute_callbacks node (pyUpdate msg (sensor_entry.getD [])))
      else Except.ok (node, [], [])
    else Except.ok (node, [], [])

/-- `NetworkNode.handle_event`, for one dequeued event (the `has_events`
guard and the `PyreEvent(self.pyre_node)` construction belong to the
transport boundary). Returns the updated node, the callback invocations, and
the warnings logged. -/
def handle_event (node : NetworkNode) (event : PyreEvent) :
    Except PyErr (NetworkNode × Trace × List LogWarn) :=
  match event.type with
  | EventType.SHOUT => handleMessage node event
  | EventType.WHISPER => handleMessage node event
  | EventType.JOIN =>
    let group := joinBase event.group
    let version := joinVersion event.group
    if group = "pupil-mobile" then
      if !node.warned_once_older_version &&
          pyStrLtB version.data __protocol_version__.data then
        Except.ok ({ node with warned_once_older_version := true }, [],
          [LogWarn.outdatedVersion])
      else if !node.warned_once_newer_version &&
          pyStrLtB __protocol_version__.data version.data then
        Except.ok ({ node with warned_once_newer_version := true }, [],
          [LogWarn.newerVersion])
      else Except.ok (node, [], [])
    else Except.ok (node, [], [])
  | EventType.EXIT =>
    Except.map (fun p => (p.1, p.2, ([] : List LogWarn)))
      (exitLoop event.peer_uuid_hex node (node.sensors.map Prod.fst))
  | EventType.OTHER => Except.ok (node, [], [])

/-- Process a sequence of dequeued events in order, accumulating callback
invocations and warnings. -/
def runEvents :
    NetworkNode → List PyreEvent → Except PyErr (NetworkNode × Trace × List LogWarn)
  | node, [] => Except.ok (node, [], [])
  | node, ev :: rest =>
    match handle_event node ev with
    | Except.error e => Except.error e
    | Except.ok (node', tr, ws) =>
      Except.map (fun p => (p.1, tr ++ p.2.1, ws ++ p.2.2)) (runEvents node' rest)

/-- The sensor-capability object returned by `NetworkNode.sensor`: the
factory call `sensor_cls(format=..., context=..., callbacks=...,
**sensor_settings)` seeded with the stored metadata (the class itself is the
external sensor-capability collaborator). -/
structure SensorHandle where
  format : DataFormat
  sensor_type : String
  settings : Dict
  callbacks : List Callback
deriving DecidableEq

/-- Modelled from the spec: the key set of `SENSOR_TYPE_CLASS_MAP` from
`ndsi.sensor`, which is not under `src/`. The spec describes it as a closed
tagged-variant registry from sensor-type tag to factory; the source's
`.get("sensor_type", "unknown")` default presumes `"unknown"` is a key. The
theorems below depend only on membership, never on the exact key set. -/
def SENSOR_TYPE_CLASS_MAP : List String := ["video", "unknown"]

/-- `NetworkNode.sensor`: registry lookup (KeyError becomes the NotFound
`ValueError`), sensor-type resolution (KeyError becomes the unsupported-type
`ValueError`), then the factory call. -/
def NetworkNode.sensor (node : NetworkNode) (sensor_uuid : String)
    (callbacks : List Callback) : Except PyErr SensorHandle :=
  match pyGet node.sensors sensor_uuid with
  | none =>
    Except.error (PyErr.valueError
      ("\"" ++ sensor_uuid ++ "\" is not an available sensor id."))
  | some sensor_settings =>
    let sensor_type := (pyGet sensor_settings "sensor_type").getD "unknown"
    if sensor_type ∈ SENSOR_TYPE_CLASS_MAP then
      Except.ok
        { format := node.format
          sensor_type := sensor_type
          settings := sensor_settings
          callbacks := callbacks }
    else
      Except.error (PyErr.valueError
        ("Sensor of type \"" ++ sensor_type ++ "\" is not supported."))

/-- State of the `Network` aggregator. -/
structure Network where
  _callbacks : List Callback
  _nodes : List NetworkNode
deriving DecidableEq

/-- `Network.__init__`: one `NetworkNode` per supported format, each
constructed with the shared callback list. -/
def Network.init (callbacks : List Callback) : Network :=
  { _callbacks := callbacks
    _nodes := supported_formats.map (fun f => NetworkNode.init f callbacks) }

/-- The `Network.callbacks` property setter: store the new list and assign
`node.callbacks = value` on every owned node (a plain attribute assignment on
`NetworkNode`, replacing the whole list). -/
def Network.set_callbacks (net : Network) (value : List Callback) : Network :=
  { _callbacks := value
    _nodes := net._nodes.map (fun node => { node with callbacks := value }) }

/-- The loop of `Network.sensor`: first owned node whose registry contains
the uuid (`sensor_uuid in node.sensors` is key membership), else the
NotFound `ValueError`. -/
def sensorLoop (sensor_uuid : String) (callbacks : List Callback) :
    List NetworkNode → Except PyErr SensorHandle
  | [] =>
    Except.error (PyErr.valueError
      ("\"" ++ sensor_uuid ++ "\" is not an available sensor id."))
  | node :: rest =>
    if (pyGet node.sensors sensor_uuid).isSome then
      node.sensor sensor_uuid callbacks
    else sensorLoop sensor_uuid callbacks rest

/-- `Network.sensor`. -/
def Network.sensor (net : Network) (sensor_uuid : String)
    (callbacks : List Callback) : Except PyErr SensorHandle :=
  sensorLoop sensor_uuid callbacks net._nodes

/-! Statement-side helpers (used only to phrase the verified properties). -/

/-- The synthetic detach payload that `rejoin` and the EXIT handler build
from a registry record; equal to the source's dict literal whenever the
record carries the three looked-up fields. -/
def synthetic_detach (sensor_uuid : String) (s : Dict) : Dict :=
  [("subject", "detach"), ("sensor_uuid", sensor_uuid),
   ("sensor_name", (pyGet s "sensor_name").getD ""),
   ("host_uuid", (pyGet s "host_uuid").getD ""),
   ("host_name", (pyGet s "host_name").getD "")]

/-- A dict has no repeated keys (every dict produced by `json.loads` and
every registry the interpreter builds satisfies this). -/
def NodupKeys {α : Type} (d : List (String × α)) : Prop :=
  (d.map Prod.fst).Nodup

instance {α : Type} (d : List (String × α)) : Decidable (NodupKeys d) :=
  inferInstanceAs (Decidable (d.map Prod.fst).Nodup)

/-- A registry record carrying the three fields the synthetic-detach paths
look up (true of every record created by a well-formed attach). -/
def RecordWF (s : Dict) : Prop :=
  (pyGet s "sensor_name").isSome = true ∧
  (pyGet s "host_uuid").isSome = true ∧
  (pyGet s "host_name").isSome = true

instance (s : Dict) : Decidable (RecordWF s) :=
  inferInstanceAs (Decidable
    ((pyGet s "sensor_name").isSome = true ∧
     (pyGet s "host_uuid").isSome = true ∧
     (pyGet s "host_name").isSome = true))

/-- Number of invocations of a given callback in a trace. -/
def countCb (tr : Trace) (cb : Callback) : Nat :=
  tr.countP (fun q => decide (q.1 = cb))

/-- Number of occurrences of a given warning. -/
def countWarn (ws : List LogWarn) (w : LogWarn) : Nat :=
  ws.countP (fun x => decide (x = w))

/-- A JOIN on this group would trip the older-version condition. -/
def olderB (g : String) : Bool :=
  decide (joinBase g = "pupil-mobile") &&
    pyStrLtB (joinVersion g).data __protocol_version__.data

/-- A JOIN on this group would trip the newer-version condition. -/
def newerB (g : String) : Bool :=
  decide (joinBase g = "pupil-mobile") &&
    pyStrLtB __protocol_version__.data (joinVersion g).data

/-- The warnings a sequence of JOINs produces, given the two flag values. -/
def joinWarnsExp : Bool → Bool → List String → List LogWarn
  | _, _, [] => []
  | wo, wn, g :: rest =>
    if wo = false ∧ olderB g = true then
      LogWarn.outdatedVersion :: joinWarnsExp true wn rest
    else if wn = false ∧ newerB g = true then
      LogWarn.newerVersion :: joinWarnsExp wo true rest
    else joinWarnsExp wo wn rest

/-- A JOIN event for a group name. -/
def joinEv (g : String) : PyreEvent :=
  { type := EventType.JOIN, peer_uuid_hex := "", peer_name := "", msg := [],
    group := g }

/-- A SHOUT event from a peer carrying one well-parsed JSON object frame. -/
def shoutEv (peer_uuid_hex peer_name : String) (m : Dict) : PyreEvent :=
  { type := EventType.SHOUT, peer_uuid_hex := peer_uuid_hex,
    peer_name := peer_name, msg := [Frame.okDict "" m], group := "" }

/-- An EXIT event for a departing peer. -/
def exitEv (peer_uuid_hex peer_name : String) : PyreEvent :=
  { type := EventType.EXIT, peer_uuid_hex := peer_uuid_hex,
    peer_name := peer_name, msg := [], group := "" }

/-- The string contains `-v` as a substring. -/
def containsDashV : List Char → Bool
  | [] => false
  | [_] => false
  | c1 :: c2 :: rest =>
    (decide (c1 = '-') && decide (c2 = 'v')) || containsDashV (c2 :: rest)

/-- Follows claim C3's words: the version obtained by splitting the group
name on the LAST `-v` delimiter (the segment after the last occurrence), or
`"0"` when the name has no `-v`. -/
def lastSplitVersion (g : String) : String :=
  let segs := pySplitDashV g
  if segs.length > 1 then segs.getLastD "0" else "0"

end Ndsi

/-! Association-list (Python dict) lemmas. -/

namespace Ndsi

theorem pyGet_cons_self {α : Type} (k : String) (v : α) (d : List (String × α)) :
    pyGet ((k, v) :: d) k = some v := by
  simp [pyGet]

theorem pyGet_cons_ne {α : Type} {a k : String} (b : α) (d : List (String × α))
    (h : a ≠ k) : pyGet ((a, b) :: d) k = pyGet d k := by
  simp [pyGet, h]

theorem pyGet_set_self {α : Type} (d : List (String × α)) (k : String) (v : α) :
    pyGet (pySet d k v) k = some v := by
  induction d with
  | nil => simp [pySet, pyGet]
  | cons q rest ih =>
    obtain ⟨a, b⟩ := q
    by_cases h : a = k
    · simp [pySet, h, pyGet]
    · simp [pySet, h, pyGet, ih]

theorem pyGet_set_ne {α : Type} (d : List (String × α)) {k k' : String} (v : α)
    (h : k' ≠ k) : pyGet (pySet d k v) k' = pyGet d k' := by
  induction d with
  | nil => simp [pySet, pyGet, Ne.symm h]
  | cons q rest ih =>
    obtain ⟨a, b⟩ := q
    by_cases hh : a = k
    · subst hh
      simp [pySet, pyGet, Ne.symm h]
    · simp [pySet, hh, pyGet, ih]

theorem pyGet_del_ne {α : Type} (d : List (String × α)) {k k' : String}
    (h : k' ≠ k) : pyGet (pyDel d k) k' = pyGet d k' := by
  induction d with
  | nil => simp [pyDel]
  | cons q rest ih =>
    obtain ⟨a, b⟩ := q
    by_cases hh : a = k
    · subst hh
      simp [pyDel, pyGet, Ne.symm h]
    · simp [pyDel, hh, pyGet, ih]

theorem pyGet_none_iff {α : Type} (d : List (String × α)) (k : String) :
    pyGet d k = none ↔ k ∉ d.map Prod.fst := by
  induction d with
  | nil => simp [pyGet]
  | cons q rest ih =>
    obtain ⟨a, b⟩ := q
    by_cases h : a = k
    · subst h
      simp [pyGet]
    · simp only [pyGet, if_neg h, ih, List.map_cons, List.mem_cons]
      constructor
      · intro hk
        rintro (rfl | hm)
        · exact h rfl
        · exact hk hm
      · intro hk hm
        exact hk (Or.inr hm)

theorem ne_nil_of_pyGet_some {α : Type} {d : List (String × α)} {k : String}
    {v : α} (h : pyGet d k = some v) : d ≠ [] := by
  intro hd
  subst hd
  simp [pyGet] at h

theorem pyGet_append_of_not_mem {α : Type} {l1 : List (String × α)}
    (l2 : List (String × α)) {k : String} (h : k ∉ l1.map Prod.fst) :
    pyGet (l1 ++ l2) k = pyGet l2 k := by
  induction l1 with
  | nil => simp
  | cons q rest ih =>
    obtain ⟨a, b⟩ := q
    simp only [List.map_cons, List.mem_cons] at h
    push_neg at h
    simp [pyGet, Ne.symm h.1, ih h.2]

theorem pyDel_append_of_not_mem {α : Type} {l1 : List (String × α)}
    (l2 : List (String × α)) {k : String} (h : k ∉ l1.map Prod.fst) :
    pyDel (l1 ++ l2) k = l1 ++ pyDel l2 k := by
  induction l1 with
  | nil => simp
  | cons q rest ih =>
    obtain ⟨a, b⟩ := q
    simp only [List.map_cons, List.mem_cons] at h
    push_neg at h
    simp [pyDel, Ne.symm h.1, ih h.2]

theorem pyDel_cons_self {α : Type} (k : String) (v : α) (d : List (String × α)) :
    pyDel ((k, v) :: d) k = d := by
  simp [pyDel]

theorem pyDel_set_cancel {α : Type} {d : List (String × α)} {k : String} (v : α)
    (h : pyGet d k = none) : pyDel (pySet d k v) k = d := by
  induction d with
  | nil => simp [pySet, pyDel]
  | cons q rest ih =>
    obtain ⟨a, b⟩ := q
    by_cases hh : a = k
    · subst hh
      simp [pyGet] at h
    · simp [pyGet, hh] at h
      simp [pySet, hh, pyDel, ih h]

theorem mem_keys_pySet {α : Type} (d : List (String × α)) (k a : String) (v : α) :
    a ∈ (pySet d k v).map Prod.fst ↔ a ∈ d.map Prod.fst ∨ a = k := by
  induction d with
  | nil => simp [pySet]
  | cons q rest ih =>
    obtain ⟨x, y⟩ := q
    by_cases h : x = k
    · subst h
      have hset : pySet ((x, y) :: rest) x v = (x, v) :: rest := by
        simp [pySet]
      rw [hset]
      simp only [List.map_cons, List.mem_cons]
      tauto
    · simp only [pySet, if_neg h, List.map_cons, List.mem_cons, ih]
      tauto

theorem NodupKeys_pySet {α : Type} {d : List (String × α)} (k : String) (v : α)
    (h : NodupKeys d) : NodupKeys (pySet d k v) := by
  induction d with
  | nil => simp [pySet, NodupKeys]
  | cons q rest ih =>
    obtain ⟨a, b⟩ := q
    simp only [NodupKeys, List.map_cons, List.nodup_cons] at h
    by_cases hh : a = k
    · subst hh
      have hset : pySet ((a, b) :: rest) a v = (a, v) :: rest := by
        simp [pySet]
      rw [hset]
      simp only [NodupKeys, List.map_cons, List.nodup_cons]
      exact h
    · simp only [pySet, if_neg hh, NodupKeys, List.map_cons, List.nodup_cons]
      refine ⟨?_, ih h.2⟩
      rw [mem_keys_pySet]
      rintro (hc | hc)
      · exact h.1 hc
      · exact hh hc

theorem pyDel_sublist {α : Type} (d : List (String × α)) (k : String) :
    (pyDel d k).Sublist d := by
  induction d with
  | nil => simp [pyDel]
  | cons q rest ih =>
    obtain ⟨a, b⟩ := q
    by_cases h : a = k
    · subst h
      simp only [pyDel, if_pos rfl]
      exact List.sublist_cons_self (a, b) rest
    · simpa [pyDel, h] using List.Sublist.cons₂ (a, b) ih

theorem NodupKeys_pyDel {α : Type} {d : List (String × α)} (k : String)
    (h : NodupKeys d) : NodupKeys (pyDel d k) :=
  List.Nodup.sublist (List.Sublist.map Prod.fst (pyDel_sublist d k)) h

theorem pyGet_del_self {α : Type} {d : List (String × α)} (k : String)
    (h : NodupKeys d) : pyGet (pyDel d k) k = none := by
  induction d with
  | nil => simp [pyDel, pyGet]
  | cons q rest ih =>
    obtain ⟨a, b⟩ := q
    simp only [NodupKeys, List.map_cons, List.nodup_cons] at h
    by_cases hh : a = k
    · subst hh
      rw [pyDel_cons_self, pyGet_none_iff]
      exact h.1
    · simp [pyDel, hh, pyGet, ih h.2]

theorem pyUpdate_cons {α : Type} (d : List (String × α)) (k : String) (v : α)
    (p : List (String × α)) :
    pyUpdate d ((k, v) :: p) = pyUpdate (pySet d k v) p := by
  simp [pyUpdate]

theorem pyGet_update_of_none {α : Type} {p : List (String × α)}
    (d : List (String × α)) {k : String} (h : pyGet p k = none) :
    pyGet (pyUpdate d p) k = pyGet d k := by
  induction p generalizing d with
  | nil => simp [pyUpdate]
  | cons q rest ih =>
    obtain ⟨a, b⟩ := q
    by_cases hh : a = k
    · subst hh
      simp [pyGet] at h
    · simp only [pyGet, if_neg hh] at h
      rw [pyUpdate_cons, ih _ h, pyGet_set_ne _ _ (fun hc => hh hc.symm)]

theorem pyGet_update_of_some {α : Type} {p : List (String × α)}
    (d : List (String × α)) {k : String} {v : α} (hnd : NodupKeys p)
    (h : pyGet p k = some v) : pyGet (pyUpdate d p) k = some v := by
  induction p generalizing d with
  | nil => simp [pyGet] at h
  | cons q rest ih =>
    obtain ⟨a, b⟩ := q
    simp only [NodupKeys, List.map_cons, List.nodup_cons] at hnd
    by_cases hh : a = k
    · subst hh
      rw [pyGet_cons_self] at h
      injection h with hbv
      subst hbv
      rw [pyUpdate_cons]
      have hrest : pyGet rest a = none := (pyGet_none_iff rest a).mpr hnd.1
      rw [pyGet_update_of_none _ hrest, pyGet_set_self]
    · simp only [pyGet, if_neg hh] at h
      rw [pyUpdate_cons]
      exact ih _ hnd.2 h

end Ndsi

/-! Stamping, `on_event` and `execute_callbacks` lemmas. -/

namespace Ndsi

theorem stampHost_get_other (m : Dict) (p n : String) {k : String}
    (h1 : k ≠ "host_uuid") (h2 : k ≠ "host_name") :
    pyGet (stampHost m p n) k = pyGet m k := by
  rw [stampHost, pyGet_set_ne _ _ h2, pyGet_set_ne _ _ h1]

theorem stampHost_get_host_uuid (m : Dict) (p n : String) :
    pyGet (stampHost m p n) "host_uuid" = some p := by
  rw [stampHost, pyGet_set_ne _ _ (by decide), pyGet_set_self]

theorem stampHost_get_host_name (m : Dict) (p n : String) :
    pyGet (stampHost m p n) "host_name" = some n := by
  rw [stampHost, pyGet_set_self]

theorem NodupKeys_stampHost {m : Dict} (p n : String) (h : NodupKeys m) :
    NodupKeys (stampHost m p n) :=
  NodupKeys_pySet _ _ (NodupKeys_pySet _ _ h)

theorem on_event_attach (sensors : Registry) {ev : Dict} {u : String}
    (hs : pyGet ev "subject" = some "attach")
    (hu : pyGet ev "sensor_uuid" = some u) :
    on_event sensors ev = Except.ok (pySet sensors u (pyDel ev "subject")) := by
  rw [on_event, hs, hu]
  simp

theorem on_event_detach (sensors : Registry) {ev : Dict} {u : String}
    (hs : pyGet ev "subject" = some "detach")
    (hu : pyGet ev "sensor_uuid" = some u) :
    on_event sensors ev = Except.ok (pyDel sensors u) := by
  rw [on_event, hs, hu]
  simp

theorem execCbsGo_ext (ev : Dict) {cbs : List Callback}
    (hcs : ∀ c ∈ cbs, c ≠ Callback.onEvent) :
    ∀ (node : NetworkNode) (tr : Trace),
      execCbsGo node cbs ev tr =
        Except.ok (node, tr ++ cbs.map (fun cb => (cb, ev))) := by
  induction cbs with
  | nil => intro node tr; simp [execCbsGo]
  | cons c rest ih =>
    intro node tr
    match c, hcs c (by simp) with
    | Callback.ext i, _ =>
      have hrest : ∀ c ∈ rest, c ≠ Callback.onEvent :=
        fun c hc => hcs c (List.mem_cons_of_mem _ hc)
      rw [execCbsGo]
      simp only [runCallback]
      rw [ih hrest node (tr ++ [(Callback.ext i, ev)])]
      simp

theorem execute_callbacks_spec {node : NetworkNode} {ev : Dict}
    {cs : List Callback} {s' : Registry}
    (hcb : node.callbacks = Callback.onEvent :: cs)
    (hcs : ∀ c ∈ cs, c ≠ Callback.onEvent)
    (hoe : on_event node.sensors ev = Except.ok s') :
    execute_callbacks node ev =
      Except.ok ({ node with sensors := s' },
        node.callbacks.map (fun cb => (cb, ev))) := by
  rw [execute_callbacks, hcb, execCbsGo]
  simp only [runCallback, hoe, Except.map, List.nil_append]
  rw [execCbsGo_ext ev hcs _ [(Callback.onEvent, ev)]]
  simp [hcb]

end Ndsi

/-! `handle_event` dispatch lemmas for SHOUT messages. -/

namespace Ndsi

theorem dictTruthy_some_of_ne {s : Dict} (hne : s ≠ []) :
    dictTruthy (some s) = true := by
  cases s with
  | nil => exact absurd rfl hne
  | cons a t => rfl

theorem tryDecode_okDict {m : Dict} (pay p pn : String) {su uu : String}
    (hs : pyGet m "subject" = some su)
    (hu : pyGet m "sensor_uuid" = some uu) :
    tryDecode [Frame.okDict pay m] p pn =
      TryOutcome.decoded (stampHost m p pn) := by
  simp only [tryDecode, hs, hu]

theorem handle_attach_new {node : NetworkNode} {cs : List Callback} {m : Dict}
    {u : String} (p pn : String)
    (hcb : node.callbacks = Callback.onEvent :: cs)
    (hcs : ∀ c ∈ cs, c ≠ Callback.onEvent)
    (hs : pyGet m "subject" = some "attach")
    (hu : pyGet m "sensor_uuid" = some u)
    (habs : pyGet node.sensors u = none) :
    handle_event node (shoutEv p pn m) =
      Except.ok
        ({ node with
            sensors := pySet node.sensors u (pyDel (stampHost m p pn) "subject") },
          node.callbacks.map (fun cb => (cb, stampHost m p pn)), []) := by
  have hs' : pyGet (stampHost m p pn) "subject" = some "attach" :=
    (stampHost_get_other m p pn (by decide) (by decide)).trans hs
  have hu' : pyGet (stampHost m p pn) "sensor_uuid" = some u :=
    (stampHost_get_other m p pn (by decide) (by decide)).trans hu
  have hexec := execute_callbacks_spec hcb hcs (on_event_attach node.sensors hs' hu')
  simp only [handle_event, shoutEv, handleMessage, tryDecode_okDict "" p pn hs hu,
    hs', hu', Option.getD, habs, dictTruthy, if_pos, hexec, Except.map]
  simp

theorem handle_attach_dup {node : NetworkNode} {m : Dict} {u : String}
    {s : Dict} (p pn : String)
    (hs : pyGet m "subject" = some "attach")
    (hu : pyGet m "sensor_uuid" = some u)
    (hent : pyGet node.sensors u = some s) (hne : s ≠ []) :
    handle_event node (shoutEv p pn m) = Except.ok (node, [], []) := by
  have hs' : pyGet (stampHost m p pn) "subject" = some "attach" :=
    (stampHost_get_other m p pn (by decide) (by decide)).trans hs
  have hu' : pyGet (stampHost m p pn) "sensor_uuid" = some u :=
    (stampHost_get_other m p pn (by decide) (by decide)).trans hu
  simp only [handle_event, shoutEv, handleMessage, tryDecode_okDict "" p pn hs hu,
    hs', hu', Option.getD, hent, dictTruthy_some_of_ne hne, if_pos, if_true]

theorem handle_detach_present {node : NetworkNode} {cs : List Callback}
    {m : Dict} {u : String} {s : Dict} (p pn : String)
    (hcb : node.callbacks = Callback.onEvent :: cs)
    (hcs : ∀ c ∈ cs, c ≠ Callback.onEvent)
    (hs : pyGet m "subject" = some "detach")
    (hu : pyGet m "sensor_uuid" = some u)
    (hent : pyGet node.sensors u = some s) (hne : s ≠ [])
    (hnd : NodupKeys s)
    (hssub : pyGet s "subject" = none)
    (hsu : pyGet s "sensor_uuid" = none ∨ pyGet s "sensor_uuid" = some u) :
    handle_event node (shoutEv p pn m) =
      Except.ok ({ node with sensors := pyDel node.sensors u },
        node.callbacks.map (fun cb => (cb, pyUpdate (stampHost m p pn) s)), []) := by
  have hs' : pyGet (stampHost m p pn) "subject" = some "detach" :=
    (stampHost_get_other m p pn (by decide) (by decide)).trans hs
  have hu' : pyGet (stampHost m p pn) "sensor_uuid" = some u :=
    (stampHost_get_other m p pn (by decide) (by decide)).trans hu
  have hes : pyGet (pyUpdate (stampHost m p pn) s) "subject" = some "detach" :=
    (pyGet_update_of_none _ hssub).trans hs'
  have heu : pyGet (pyUpdate (stampHost m p pn) s) "sensor_uuid" = some u := by
    rcases hsu with hnone | hsome
    · exact (pyGet_update_of_none _ hnone).trans hu'
    · exact pyGet_update_of_some _ hnd hsome
  have hexec := execute_callbacks_spec hcb hcs
    (on_event_detach node.sensors hes heu)
  simp only [handle_event, shoutEv, handleMessage, tryDecode_okDict "" p pn hs hu,
    hs', hu', Option.getD, hent, dictTruthy_some_of_ne hne, hexec, Except.map]
  simp

end Ndsi

/-! `rejoin` and EXIT loop characterizations. -/

namespace Ndsi

theorem synthetic_detach_eq {s : Dict} {sn hu hn : String} (u : String)
    (hsn : pyGet s "sensor_name" = some sn)
    (hhu : pyGet s "host_uuid" = some hu)
    (hhn : pyGet s "host_name" = some hn) :
    synthetic_detach u s =
      [("subject", "detach"), ("sensor_uuid", u), ("sensor_name", sn),
       ("host_uuid", hu), ("host_name", hn)] := by
  simp [synthetic_detach, hsn, hhu, hhn]

theorem synthetic_detach_subject (u : String) (s : Dict) :
    pyGet (synthetic_detach u s) "subject" = some "detach" := by
  simp [synthetic_detach, pyGet]

theorem synthetic_detach_uuid (u : String) (s : Dict) :
    pyGet (synthetic_detach u s) "sensor_uuid" = some u := by
  simp [synthetic_detach, pyGet]

theorem rejoinLoop_spec {cs : List Callback}
    (hcs : ∀ c ∈ cs, c ≠ Callback.onEvent) :
    ∀ (snap : List (String × Dict)) (node : NetworkNode),
      node.callbacks = Callback.onEvent :: cs →
      node.sensors = snap →
      (∀ q ∈ snap, RecordWF q.2) →
      rejoinLoop node snap =
        Except.ok ({ node with sensors := [] },
          snap.flatMap (fun q =>
            (Callback.onEvent :: cs).map (fun cb => (cb, synthetic_detach q.1 q.2)))) := by
  intro snap
  induction snap with
  | nil =>
    intro node hcb hsen _
    have heta : ({ node with sensors := [] } : NetworkNode) = node := by
      rw [← hsen]
    simp [rejoinLoop, hsen, heta]
  | cons q rest ih =>
    intro node hcb hsen hwf
    obtain ⟨u, s⟩ := q
    obtain ⟨sn, hsn⟩ := Option.isSome_iff_exists.mp (hwf (u, s) (by simp)).1
    obtain ⟨hu, hhu⟩ := Option.isSome_iff_exists.mp (hwf (u, s) (by simp)).2.1
    obtain ⟨hn, hhn⟩ := Option.isSome_iff_exists.mp (hwf (u, s) (by simp)).2.2
    have hev : [("subject", "detach"), ("sensor_uuid", u), ("sensor_name", sn),
        ("host_uuid", hu), ("host_name", hn)] = synthetic_detach u s :=
      (synthetic_detach_eq u hsn hhu hhn).symm
    have hoe : on_event node.sensors (synthetic_detach u s) =
        Except.ok rest := by
      rw [on_event_detach node.sensors (synthetic_detach_subject u s)
        (synthetic_detach_uuid u s), hsen, pyDel_cons_self]
    have hexec := execute_callbacks_spec hcb hcs hoe
    have ihres := ih { node with sensors := rest } (by simp [hcb]) rfl
      (fun q hq => hwf q (List.mem_cons_of_mem _ hq))
    simp only [rejoinLoop, hsn, hhu, hhn, hev, hexec, ihres, Except.map]
    simp [hcb, List.flatMap_cons]

theorem exitLoop_spec {cs : List Callback} (gone : String)
    (hcs : ∀ c ∈ cs, c ≠ Callback.onEvent) :
    ∀ (R kept : Registry) (node : NetworkNode),
      node.callbacks = Callback.onEvent :: cs →
      node.sensors = kept ++ R →
      NodupKeys (kept ++ R) →
      (∀ q ∈ R, RecordWF q.2) →
      exitLoop gone node (R.map Prod.fst) =
        Except.ok
          ({ node with sensors :=
              kept ++ R.filter (fun q => !(decide (pyGet q.2 "host_uuid" = some gone))) },
            (R.filter (fun q => decide (pyGet q.2 "host_uuid" = some gone))).flatMap
              (fun q =>
                (Callback.onEvent :: cs).map (fun cb => (cb, synthetic_detach q.1 q.2)))) := by
  intro R
  induction R with
  | nil =>
    intro kept node hcb hsen _ _
    have hsen' : node.sensors = kept := by simpa using hsen
    have heta : ({ node with sensors := kept } : NetworkNode) = node := by
      rw [← hsen']
    simp [exitLoop, hsen', heta]
  | cons q rest ih =>
    intro kept node hcb hsen hnd hwf
    obtain ⟨u, s⟩ := q
    have hknotmem : u ∉ kept.map Prod.fst := by
      have := hnd
      simp only [NodupKeys, List.map_append, List.map_cons] at this
      have hdisj := (List.nodup_append.mp this).2.2
      intro hc
      exact hdisj hc (by simp)
    have hget : pyGet node.sensors u = some s := by
      rw [hsen, pyGet_append_of_not_mem _ hknotmem, pyGet_cons_self]
    obtain ⟨sn, hsn⟩ := Option.isSome_iff_exists.mp (hwf (u, s) (by simp)).1
    obtain ⟨hu, hhu⟩ := Option.isSome_iff_exists.mp (hwf (u, s) (by simp)).2.1
    obtain ⟨hn, hhn⟩ := Option.isSome_iff_exists.mp (hwf (u, s) (by simp)).2.2
    have hwfrest : ∀ q ∈ rest, RecordWF q.2 :=
      fun q hq => hwf q (List.mem_cons_of_mem _ hq)
    have hndrest : NodupKeys (kept ++ rest) := by
      have hsub : (kept ++ rest).Sublist (kept ++ (u, s) :: rest) :=
        List.Sublist.append_left (List.sublist_cons_self _ _) kept
      exact List.Nodup.sublist (List.Sublist.map Prod.fst hsub) hnd
    by_cases hhost : hu = gone
    · subst hhost
      have hev : [("subject", "detach"), ("sensor_uuid", u), ("sensor_name", sn),
          ("host_uuid", hu), ("host_name", hn)] = synthetic_detach u s :=
        (synthetic_detach_eq u hsn hhu hhn).symm
      have hoe : on_event node.sensors (synthetic_detach u s) =
          Except.ok (kept ++ rest) := by
        rw [on_event_detach node.sensors (synthetic_detach_subject u s)
          (synthetic_detach_uuid u s), hsen,
          pyDel_append_of_not_mem _ hknotmem, pyDel_cons_self]
      have hexec := execute_callbacks_spec hcb hcs hoe
      have ihres := ih kept { node with sensors := kept ++ rest }
        (by simp [hcb]) rfl hndrest hwfrest
      simp only [List.map_cons, exitLoop, hget, hhu, if_pos rfl, hsn, hhn, hev,
        hexec, ihres, Except.map]
      simp [hcb, List.flatMap_cons, List.filter_cons, hhu]
    · have ihres := ih (kept ++ [(u, s)]) node hcb
        (by rw [hsen]; simp) (by simpa using hnd) hwfrest
      simp only [List.map_cons, exitLoop, hget, hhu, if_neg hhost, ihres]
      have hfilterpos :
          (((u, s) :: rest).filter
            (fun q => !(decide (pyGet q.2 "host_uuid" = some gone)))) =
          (u, s) :: rest.filter (fun q => !(decide (pyGet q.2 "host_uuid" = some gone))) := by
        simp [List.filter_cons, hhu, hhost]
      have hfilterneg :
          (((u, s) :: rest).filter
            (fun q => decide (pyGet q.2 "host_uuid" = some gone))) =
          rest.filter (fun q => decide (pyGet q.2 "host_uuid" = some gone)) := by
        simp [List.filter_cons, hhu, hhost]
      rw [hfilterpos, hfilterneg]
      simp

end Ndsi

/-! Version-gate (JOIN) lemmas. -/

namespace Ndsi

theorem pyStrLtB_asymm : ∀ {a b : List Char},
    pyStrLtB a b = true → pyStrLtB b a = false := by
  intro a
  induction a with
  | nil =>
    intro b h
    cases b with
    | nil => simp [pyStrLtB] at h
    | cons c cs => simp [pyStrLtB]
  | cons x xs ih =>
    intro b h
    cases b with
    | nil => simp [pyStrLtB] at h
    | cons y ys =>
      by_cases hxy : x = y
      · subst hxy
        simp only [pyStrLtB, if_pos rfl] at h ⊢
        exact ih h
      · simp only [pyStrLtB, if_neg hxy] at h
        simp only [pyStrLtB, if_neg (Ne.symm hxy)]
        have hlt : x < y := of_decide_eq_true h
        simp [not_lt_of_lt hlt]

theorem olderB_newerB_exclusive {g : String} (h : olderB g = true) :
    newerB g = false := by
  simp only [olderB, Bool.and_eq_true] at h
  simp only [newerB, h.1, Bool.true_and]
  exact pyStrLtB_asymm h.2

theorem newerB_olderB_exclusive {g : String} (h : newerB g = true) :
    olderB g = false := by
  simp only [newerB, Bool.and_eq_true] at h
  simp only [olderB, h.1, Bool.true_and]
  exact pyStrLtB_asymm h.2

theorem handle_event_join (node : NetworkNode) (g : String) :
    handle_event node (joinEv g) =
      if (!node.warned_once_older_version && olderB g) = true then
        Except.ok ({ node with warned_once_older_version := true }, [],
          [LogWarn.outdatedVersion])
      else if (!node.warned_once_newer_version && newerB g) = true then
        Except.ok ({ node with warned_once_newer_version := true }, [],
          [LogWarn.newerVersion])
      else Except.ok (node, [], []) := by
  by_cases hb : joinBase g = "pupil-mobile"
  · simp [handle_event, joinEv, olderB, newerB, hb]
  · simp [handle_event, joinEv, olderB, newerB, hb]

theorem runEvents_join (gs : List String) :
    ∀ node : NetworkNode,
      runEvents node (gs.map joinEv) =
        Except.ok
          ({ node with
              warned_once_older_version :=
                node.warned_once_older_version || gs.any olderB,
              warned_once_newer_version :=
                node.warned_once_newer_version || gs.any newerB },
            [],
            joinWarnsExp node.warned_once_older_version
              node.warned_once_newer_version gs) := by
  induction gs with
  | nil =>
    intro node
    have heta :
        ({ node with
            warned_once_older_version := node.warned_once_older_version,
            warned_once_newer_version := node.warned_once_newer_version } :
          NetworkNode) = node := rfl
    simp [runEvents, joinWarnsExp, heta]
  | cons g rest ih =>
    intro node
    rw [List.map_cons, runEvents, handle_event_join]
    by_cases h1 : (!node.warned_once_older_version && olderB g) = true
    · obtain ⟨hwo', hold⟩ :
          node.warned_once_older_version = false ∧ olderB g = true := by
        simpa using h1
      have hnew : newerB g = false := olderB_newerB_exclusive hold
      rw [if_pos h1]
      simp only [ih, Except.map]
      simp [joinWarnsExp, hwo', hold, hnew, List.any_cons]
    · rw [if_neg h1]
      by_cases h2 : (!node.warned_once_newer_version && newerB g) = true
      · obtain ⟨hwn', hnewt⟩ :
            node.warned_once_newer_version = false ∧ newerB g = true := by
          simpa using h2
        have hold : olderB g = false := newerB_olderB_exclusive hnewt
        rw [if_pos h2]
        simp only [ih, Except.map]
        simp [joinWarnsExp, hwn', hnewt, hold, List.any_cons]
      · rw [if_neg h2]
        simp only [ih, Except.map]
        have h1' : node.warned_once_older_version = true ∨ olderB g = false := by
          cases hwo : node.warned_once_older_version with
          | true => exact Or.inl rfl
          | false =>
            cases hog : olderB g with
            | false => exact Or.inr rfl
            | true => exact absurd (by simp [hwo, hog]) h1
        have h2' : node.warned_once_newer_version = true ∨ newerB g = false := by
          cases hwn : node.warned_once_newer_version with
          | true => exact Or.inl rfl
          | false =>
            cases hng : newerB g with
            | false => exact Or.inr rfl
            | true => exact absurd (by simp [hwn, hng]) h2
        simp only [List.any_cons]
        rcases h1' with h1' | h1' <;> rcases h2' with h2' | h2' <;>
          simp [joinWarnsExp, h1', h2', List.any_cons]

theorem countWarn_cons (w x : LogWarn) (ws : List LogWarn) :
    countWarn (w :: ws) x = countWarn ws x + (if w = x then 1 else 0) := by
  simp [countWarn, List.countP_cons]

theorem countWarn_joinWarnsExp_older (gs : List String) :
    ∀ wo wn : Bool,
      countWarn (joinWarnsExp wo wn gs) LogWarn.outdatedVersion =
        if wo = false ∧ gs.any olderB = true then 1 else 0 := by
  induction gs with
  | nil => intro wo wn; simp [joinWarnsExp, countWarn]
  | cons g rest ih =>
    intro wo wn
    by_cases h1 : wo = false ∧ olderB g = true
    · rw [joinWarnsExp, if_pos h1, countWarn_cons, ih]
      simp [h1.1, h1.2, List.any_cons]
    · by_cases h2 : wn = false ∧ newerB g = true
      · rw [joinWarnsExp, if_neg h1, if_pos h2, countWarn_cons, ih]
        have hold : olderB g = false := newerB_olderB_exclusive h2.2
        simp [hold, List.any_cons]
      · rw [joinWarnsExp, if_neg h1, if_neg h2, ih]
        cases hwo : wo with
        | true => simp [hwo]
        | false =>
          have hold : olderB g = false := by
            cases hog : olderB g with
            | false => rfl
            | true => exact absurd ⟨hwo, hog⟩ h1
          simp [hold, List.any_cons]

theorem countWarn_joinWarnsExp_newer (gs : List String) :
    ∀ wo wn : Bool,
      countWarn (joinWarnsExp wo wn gs) LogWarn.newerVersion =
        if wn = false ∧ gs.any newerB = true then 1 else 0 := by
  induction gs with
  | nil => intro wo wn; simp [joinWarnsExp, countWarn]
  | cons g rest ih =>
    intro wo wn
    by_cases h1 : wo = false ∧ olderB g = true
    · rw [joinWarnsExp, if_pos h1, countWarn_cons, ih]
      have hnew : newerB g = false := olderB_newerB_exclusive h1.2
      simp [hnew, List.any_cons]
    · by_cases h2 : wn = false ∧ newerB g = true
      · rw [joinWarnsExp, if_neg h1, if_pos h2, countWarn_cons, ih]
        simp [h2.1, h2.2, List.any_cons]
      · rw [joinWarnsExp, if_neg h1, if_neg h2, ih]
        cases hwn : wn with
        | true => simp [hwn]
        | false =>
          have hnew : newerB g = false := by
            cases hng : newerB g with
            | false => rfl
            | true => exact absurd ⟨hwn, hng⟩ h2
          simp [hnew, List.any_cons]

end Ndsi

/-! Counting, group-name splitting, and sensor-lookup lemmas. -/

namespace Ndsi

theorem countP_eq_one_of_nodup {cbs : List Callback} {cb : Callback}
    (hnd : cbs.Nodup) (hm : cb ∈ cbs) :
    cbs.countP (fun c => decide (c = cb)) = 1 := by
  induction cbs with
  | nil => simp at hm
  | cons c rest ih =>
    rw [List.nodup_cons] at hnd
    rcases List.mem_cons.mp hm with hh | hh
    · subst hh
      have hz : rest.countP (fun c => decide (c = cb)) = 0 := by
        rw [List.countP_eq_zero]
        intro a ha
        simp only [decide_eq_true_eq]
        intro hc
        exact hnd.1 (hc ▸ ha)
      simp [List.countP_cons, hz]
    · have hne : c ≠ cb := fun hc => hnd.1 (hc ▸ hh)
      simp [List.countP_cons, ih hnd.2 hh, hne]

theorem countCb_fanout {α : Type} (l : List (String × α)) (cbs : List Callback)
    (f : String × α → Dict) {cb : Callback} (hnd : cbs.Nodup) (hm : cb ∈ cbs) :
    countCb (l.flatMap (fun q => cbs.map (fun cb2 => (cb2, f q)))) cb =
      l.length := by
  induction l with
  | nil => simp [countCb]
  | cons q rest ih =>
    rw [List.flatMap_cons]
    simp only [countCb, List.countP_append] at ih ⊢
    rw [ih, List.countP_map]
    have : ((fun q2 : Callback × Dict => decide (q2.1 = cb)) ∘
        fun cb2 => (cb2, f q)) = fun c => decide (c = cb) := rfl
    rw [this, countP_eq_one_of_nodup hnd hm]
    simp [Nat.add_comm]

theorem splitDashV_no_occ : ∀ {a : List Char},
    containsDashV a = false → splitDashV a = [a] := by
  intro a
  induction a with
  | nil => intro _; rfl
  | cons c tail ih =>
    intro h
    cases tail with
    | nil => rfl
    | cons c2 t2 =>
      simp only [containsDashV, Bool.or_eq_false_iff, Bool.and_eq_false_iff] at h
      have hcond : ¬(c = '-' ∧ c2 = 'v') := by
        rcases h.1 with hx | hx
        · intro hc
          rw [decide_eq_false_iff_not] at hx
          exact hx hc.1
        · intro hc
          rw [decide_eq_false_iff_not] at hx
          exact hx hc.2
      have htail : containsDashV (c2 :: t2) = false := h.2
      rw [splitDashV, if_neg hcond, ih htail]

theorem splitDashV_sep_append : ∀ {a : List Char} (b : List Char),
    containsDashV a = false →
    splitDashV (a ++ '-' :: 'v' :: b) = a :: splitDashV b := by
  intro a
  induction a with
  | nil =>
    intro b _
    rw [List.nil_append, splitDashV, if_pos ⟨rfl, rfl⟩]
  | cons c tail ih =>
    intro b h
    cases tail with
    | nil =>
      have hcond : ¬(c = '-' ∧ ('-' : Char) = 'v') := by
        intro hc
        exact absurd hc.2 (by decide)
      show splitDashV (c :: '-' :: 'v' :: b) = [c] :: splitDashV b
      rw [splitDashV, if_neg hcond]
      have hbase : splitDashV ('-' :: 'v' :: b) = [] :: splitDashV b := by
        rw [splitDashV, if_pos ⟨rfl, rfl⟩]
      rw [hbase]
    | cons c2 t2 =>
      simp only [containsDashV, Bool.or_eq_false_iff, Bool.and_eq_false_iff] at h
      have hcond : ¬(c = '-' ∧ c2 = 'v') := by
        rcases h.1 with hx | hx
        · intro hc
          rw [decide_eq_false_iff_not] at hx
          exact hx hc.1
        · intro hc
          rw [decide_eq_false_iff_not] at hx
          exact hx hc.2
      have htail : containsDashV (c2 :: t2) = false := h.2
      show splitDashV (c :: c2 :: (t2 ++ '-' :: 'v' :: b)) =
        (c :: c2 :: t2) :: splitDashV b
      rw [splitDashV, if_neg hcond]
      have hrec : splitDashV (c2 :: (t2 ++ '-' :: 'v' :: b)) =
          (c2 :: t2) :: splitDashV b := ih b htail
      rw [hrec]

end Ndsi

/-! Derived group-name parsing and `Network.sensor` search lemmas. -/

namespace Ndsi

theorem string_mk_data (s : String) : String.mk s.data = s := rfl

theorem data_append_sep (base rest : String) :
    (base ++ "-v" ++ rest).data = base.data ++ '-' :: 'v' :: rest.data := by
  rw [String.data_append, String.data_append]
  rw [show ("-v" : String).data = ['-', 'v'] from rfl]
  simp

theorem pySplitDashV_sep {base : String} (rest : String)
    (hb : containsDashV base.data = false) :
    pySplitDashV (base ++ "-v" ++ rest) =
      base :: (splitDashV rest.data).map (fun l => String.mk l) := by
  rw [pySplitDashV, data_append_sep, splitDashV_sep_append rest.data hb]
  simp [string_mk_data]

theorem joinBase_sep {base : String} (rest : String)
    (hb : containsDashV base.data = false) :
    joinBase (base ++ "-v" ++ rest) = base := by
  rw [joinBase, pySplitDashV_sep rest hb]
  rfl

theorem joinVersion_single {base ver : String}
    (hb : containsDashV base.data = false)
    (hv : containsDashV ver.data = false) :
    joinVersion (base ++ "-v" ++ ver) = ver := by
  rw [joinVersion, pySplitDashV_sep ver hb, splitDashV_no_occ hv]
  simp [string_mk_data]

theorem joinVersion_multi {base ver : String} (s : String)
    (hb : containsDashV base.data = false)
    (hv : containsDashV ver.data = false) :
    joinVersion (base ++ "-v" ++ ver ++ "-v" ++ s) = ver := by
  have hassoc : base ++ "-v" ++ ver ++ "-v" ++ s =
      base ++ "-v" ++ (ver ++ "-v" ++ s) := by
    simp [String.append_assoc]
  rw [hassoc, joinVersion, pySplitDashV_sep (ver ++ "-v" ++ s) hb,
    data_append_sep, splitDashV_sep_append s.data hv]
  simp [string_mk_data]

theorem joinParse_no_occ {g : String} (h : containsDashV g.data = false) :
    joinBase g = g ∧ joinVersion g = "0" := by
  constructor
  · rw [joinBase, pySplitDashV, splitDashV_no_occ h]
    simp [string_mk_data]
  · rw [joinVersion, pySplitDashV, splitDashV_no_occ h]
    simp

theorem handle_event_join_ignored (node : NetworkNode) {g : String}
    (h : joinBase g ≠ "pupil-mobile") :
    handle_event node (joinEv g) = Except.ok (node, [], []) := by
  simp [handle_event, joinEv, h]

theorem sensorLoop_not_found (u : String) (cbs : List Callback) :
    ∀ nodes : List NetworkNode,
      (∀ n ∈ nodes, pyGet n.sensors u = none) →
      sensorLoop u cbs nodes =
        Except.error (PyErr.valueError
          ("\"" ++ u ++ "\" is not an available sensor id.")) := by
  intro nodes
  induction nodes with
  | nil => intro _; rfl
  | cons n rest ih =>
    intro h
    rw [sensorLoop, if_neg (by simp [h n (by simp)])]
    exact ih (fun m hm => h m (List.mem_cons_of_mem _ hm))

theorem sensorLoop_first (u : String) (cbs : List Callback) :
    ∀ (pre : List NetworkNode) (node : NetworkNode) (post : List NetworkNode),
      (∀ n ∈ pre, pyGet n.sensors u = none) →
      (pyGet node.sensors u).isSome = true →
      sensorLoop u cbs (pre ++ node :: post) = node.sensor u cbs := by
  intro pre
  induction pre with
  | nil =>
    intro node post _ hsome
    rw [List.nil_append, sensorLoop, if_pos hsome]
  | cons n rest ih =>
    intro node post hnone hsome
    rw [List.cons_append, sensorLoop, if_neg (by simp [hnone n (by simp)])]
    exact ih node post (fun m hm => hnone m (List.mem_cons_of_mem _ hm)) hsome

end Ndsi

/-! Claim theorems. -/

namespace Ndsi

/-- Claim C1 (refuting evaluation): the claim says that after the
Aggregator's callbacks setter replaces the shared list, a surviving attach
event still applies the Registry `put` before invoking every registered
callback. On the code, `Network.callbacks`'s setter assigns
`node.callbacks = value` wholesale, dropping the registry-mutating
`self.on_event` that `__init__` had prepended: after the setter each owned
node's list is exactly `[ext 0]`, and processing a valid attach event
invokes that callback but leaves the Registry unchanged (no `put`). -/
theorem C1_setter_drops_registry_mutation :
    (Network.set_callbacks (Network.init []) [Callback.ext 0])._nodes =
      [{ format := DataFormat.V3, sensors := [], callbacks := [Callback.ext 0],
         warned_once_older_version := false, warned_once_newer_version := false },
       { format := DataFormat.V4, sensors := [], callbacks := [Callback.ext 0],
         warned_once_older_version := false, warned_once_newer_version := false }] ∧
    handle_event
        { format := DataFormat.V3, sensors := [], callbacks := [Callback.ext 0],
          warned_once_older_version := false, warned_once_newer_version := false }
        (shoutEv "h1" "host"
          [("subject", "attach"), ("sensor_uuid", "u1"), ("sensor_name", "cam")]) =
      Except.ok
        ({ format := DataFormat.V3, sensors := [], callbacks := [Callback.ext 0],
           warned_once_older_version := false, warned_once_newer_version := false },
          [(Callback.ext 0,
            [("subject", "attach"), ("sensor_uuid", "u1"), ("sensor_name", "cam"),
             ("host_uuid", "h1"), ("host_name", "host")])],
          []) :=
  ⟨rfl, rfl⟩

/-- Claim C2 (refuting evaluation): the claim says every SHOUT/WHISPER whose
payload cannot be decoded raises nothing past the interpreter boundary. For a
first frame whose bytes are not valid text, `.decode()` raises
`UnicodeDecodeError` (a `ValueError`); the `except (ValueError, KeyError)`
handler then formats the local `msg`, which is still unbound, so
`UnboundLocalError` escapes `handle_event`. By contrast a frame that decodes
but is not valid JSON is logged and dropped with no callback, no registry
change and no exception, as the claim describes. -/
theorem C2_bad_bytes_raises_unbound_local :
    handle_event (NetworkNode.init DataFormat.V3 [Callback.ext 0])
        { type := EventType.SHOUT, peer_uuid_hex := "p", peer_name := "peer",
          msg := [Frame.badBytes], group := "" } =
      Except.error (PyErr.unboundLocalError "msg") ∧
    handle_event (NetworkNode.init DataFormat.V3 [Callback.ext 0])
        { type := EventType.SHOUT, peer_uuid_hex := "p", peer_name := "peer",
          msg := [Frame.badJson "truncated"], group := "" } =
      Except.ok (NetworkNode.init DataFormat.V3 [Callback.ext 0], [],
        [LogWarn.malformedPayload "truncated"]) :=
  ⟨rfl, rfl⟩

/-- Claim C3 counterexample: the claim says the Version Gate splits a JOIN
group name on the LAST `-v` delimiter, so for `"pupil-mobile-v3-v5"` the
version would be `"5"` (the segment after the last occurrence). The code
calls `group.split('-v')` — splitting on EVERY occurrence — and takes
element 1, yielding `"3"`. -/
theorem C3_counterexample :
    joinVersion "pupil-mobile-v3-v5" = "3" ∧
    lastSplitVersion "pupil-mobile-v3-v5" = "5" ∧
    joinVersion "pupil-mobile-v3-v5" ≠ lastSplitVersion "pupil-mobile-v3-v5" :=
  ⟨rfl, rfl, by decide⟩

/-- Claim C3 (amended): the Version Gate splits the JOIN group name on EVERY
`-v` occurrence; the base is the segment before the first occurrence and the
version is the segment between the first and second occurrences (for a name
with a single occurrence, everything after it); a name containing no `-v`
yields base itself and version "0"; and if the base does not match
`pupil-mobile` the event is ignored (no state change, no callback, no
warning). -/
theorem C3_join_parse_amended (node : NetworkNode) (g base ver s : String)
    (hb : containsDashV base.data = false)
    (hv : containsDashV ver.data = false)
    (hg : joinBase g ≠ "pupil-mobile") :
    joinBase (base ++ "-v" ++ ver) = base ∧
    joinVersion (base ++ "-v" ++ ver) = ver ∧
    joinVersion (base ++ "-v" ++ ver ++ "-v" ++ s) = ver ∧
    (containsDashV g.data = false → joinBase g = g ∧ joinVersion g = "0") ∧
    handle_event node (joinEv g) = Except.ok (node, [], []) := by
  refine ⟨joinBase_sep ver hb, joinVersion_single hb hv,
    joinVersion_multi s hb hv, fun hng => joinParse_no_occ hng,
    handle_event_join_ignored node hg⟩

/-- Witness for C3 at concrete inputs: base `"fam"`, version `"10"`, a
two-occurrence name, a delimiterless name, and an ignored JOIN for the
unrelated group `"other-v9"`. -/
theorem C3_join_parse_amended_witness :
    joinBase ("fam" ++ "-v" ++ "10") = "fam" ∧
    joinVersion ("fam" ++ "-v" ++ "10") = "10" ∧
    joinVersion ("fam" ++ "-v" ++ "10" ++ "-v" ++ "7") = "10" ∧
    (containsDashV ("other-v9" : String).data = false →
      joinBase "other-v9" = "other-v9" ∧ joinVersion "other-v9" = "0") ∧
    handle_event (NetworkNode.init DataFormat.V3 []) (joinEv "other-v9") =
      Except.ok (NetworkNode.init DataFormat.V3 [], [], []) :=
  C3_join_parse_amended (NetworkNode.init DataFormat.V3 []) "other-v9" "fam"
    "10" "7" (by decide) (by decide) (by decide)

/-- Claim C4 counterexample: the claim says the Registry is not physically
cleared by the `rejoin()` call alone. On the code, each synthetic detach
event flows through `execute_callbacks`, whose first entry is the node's own
`on_event`, which deletes the entry: a node holding one sensor has an empty
registry immediately after `rejoin()` returns. -/
theorem C4_counterexample :
    rejoin
        { format := DataFormat.V3,
          sensors := [("u1", [("sensor_name", "cam"), ("host_uuid", "h1"),
            ("host_name", "alpha")])],
          callbacks := [Callback.onEvent, Callback.ext 0],
          warned_once_older_version := false,
          warned_once_newer_version := false } =
      Except.ok
        ({ format := DataFormat.V3, sensors := [],
           callbacks := [Callback.onEvent, Callback.ext 0],
           warned_once_older_version := false,
           warned_once_newer_version := false },
          [(Callback.onEvent,
            [("subject", "detach"), ("sensor_uuid", "u1"), ("sensor_name", "cam"),
             ("host_uuid", "h1"), ("host_name", "alpha")]),
           (Callback.ext 0,
            [("subject", "detach"), ("sensor_uuid", "u1"), ("sensor_name", "cam"),
             ("host_uuid", "h1"), ("host_name", "alpha")])]) ∧
    ([("u1", [("sensor_name", "cam"), ("host_uuid", "h1"),
      ("host_name", "alpha")])] : Registry) ≠ [] :=
  ⟨rfl, by decide⟩

/-- Claim C4 (amended): `rejoin()` on a Group Node with *k* registered
sensors invokes each registered callback with exactly *k* synthetic Detach
events (one per sensor, carrying the host/sensor metadata stored in the
Registry); and because those events pass through the node's own `on_event`
callback, the Registry is empty after the call (it IS cleared by the rejoin
call, via the callback path, contrary to the original claim's second part). -/
theorem C4_rejoin_amended (node : NetworkNode) (cs : List Callback)
    (hcb : node.callbacks = Callback.onEvent :: cs)
    (hcs : ∀ c ∈ cs, c ≠ Callback.onEvent)
    (hwf : ∀ q ∈ node.sensors, RecordWF q.2) :
    rejoin node =
      Except.ok ({ node with sensors := [] },
        node.sensors.flatMap (fun q =>
          node.callbacks.map (fun cb => (cb, synthetic_detach q.1 q.2)))) ∧
    (node.callbacks.Nodup →
      ∀ cb ∈ node.callbacks,
        countCb (node.sensors.flatMap (fun q =>
          node.callbacks.map (fun cb2 => (cb2, synthetic_detach q.1 q.2)))) cb =
          node.sensors.length) := by
  constructor
  · have hspec := rejoinLoop_spec hcs node.sensors node hcb rfl hwf
    rw [rejoin, hspec, ← hcb]
  · intro hndcb cb hmem
    exact countCb_fanout node.sensors node.callbacks
      (fun q => synthetic_detach q.1 q.2) hndcb hmem

/-- Witness for C4 at a concrete node with one registered sensor and one
external observer: the full trace, the emptied registry, and the per-callback
invocation count of 1. -/
theorem C4_rejoin_amended_witness :
    rejoin
        { format := DataFormat.V3,
          sensors := [("u1", [("sensor_name", "cam"), ("host_uuid", "h1"),
            ("host_name", "alpha")])],
          callbacks := [Callback.onEvent, Callback.ext 0],
          warned_once_older_version := false,
          warned_once_newer_version := false } =
      Except.ok
        ({ format := DataFormat.V3, sensors := [],
           callbacks := [Callback.onEvent, Callback.ext 0],
           warned_once_older_version := false,
           warned_once_newer_version := false },
          [(Callback.onEvent,
            [("subject", "detach"), ("sensor_uuid", "u1"), ("sensor_name", "cam"),
             ("host_uuid", "h1"), ("host_name", "alpha")]),
           (Callback.ext 0,
            [("subject", "detach"), ("sensor_uuid", "u1"), ("sensor_name", "cam"),
             ("host_uuid", "h1"), ("host_name", "alpha")])]) ∧
    countCb
        [(Callback.onEvent,
          [("subject", "detach"), ("sensor_uuid", "u1"), ("sensor_name", "cam"),
           ("host_uuid", "h1"), ("host_name", "alpha")]),
         (Callback.ext 0,
          [("subject", "detach"), ("sensor_uuid", "u1"), ("sensor_name", "cam"),
           ("host_uuid", "h1"), ("host_name", "alpha")])]
        (Callback.ext 0) = 1 := by
  have h := C4_rejoin_amended
    { format := DataFormat.V3,
      sensors := [("u1", [("sensor_name", "cam"), ("host_uuid", "h1"),
        ("host_name", "alpha")])],
      callbacks := [Callback.onEvent, Callback.ext 0],
      warned_once_older_version := false,
      warned_once_newer_version := false }
    [Callback.ext 0] rfl (by decide) (by decide)
  exact ⟨h.1, h.2 (by decide) (Callback.ext 0) (by decide)⟩

/-- Claim C5: per Group Node lifetime, over any sequence of JOIN events, a
version comparing lexicographically (Python string `<`) below the supported
version trips the "older version" warning exactly once, a version comparing
above trips the "newer version" warning exactly once, later occurrences of
either condition are silent, and JOIN processing never invokes a callback or
mutates the Registry (only the two one-shot flags change). -/
theorem C5_version_warn_once (node : NetworkNode) (gs : List String)
    (h1 : node.warned_once_older_version = false)
    (h2 : node.warned_once_newer_version = false) :
    runEvents node (gs.map joinEv) =
      Except.ok
        ({ node with
            warned_once_older_version := gs.any olderB,
            warned_once_newer_version := gs.any newerB },
          [], joinWarnsExp false false gs) ∧
    countWarn (joinWarnsExp false false gs) LogWarn.outdatedVersion =
      (if gs.any olderB = true then 1 else 0) ∧
    countWarn (joinWarnsExp false false gs) LogWarn.newerVersion =
      (if gs.any newerB = true then 1 else 0) := by
  refine ⟨?_, ?_, ?_⟩
  · rw [runEvents_join gs node, h1, h2]
    simp
  · rw [countWarn_joinWarnsExp_older]
    simp
  · rw [countWarn_joinWarnsExp_newer]
    simp

/-- Witness for C5: a fresh node sees `pupil-mobile-v10` twice (version
`"10"`, lexicographically below `"4"`) and `pupil-mobile-v40` once (above):
exactly one outdated-version warning and one newer-version warning, no
callbacks, registry untouched. -/
theorem C5_version_warn_once_witness :
    runEvents (NetworkNode.init DataFormat.V3 [])
        (["pupil-mobile-v10", "pupil-mobile-v10", "pupil-mobile-v40"].map joinEv) =
      Except.ok
        ({ format := DataFormat.V3, sensors := [],
           callbacks := [Callback.onEvent],
           warned_once_older_version := true,
           warned_once_newer_version := true },
          [], [LogWarn.outdatedVersion, LogWarn.newerVersion]) ∧
    countWarn [LogWarn.outdatedVersion, LogWarn.newerVersion]
      LogWarn.outdatedVersion = 1 ∧
    countWarn [LogWarn.outdatedVersion, LogWarn.newerVersion]
      LogWarn.newerVersion = 1 :=
  C5_version_warn_once (NetworkNode.init DataFormat.V3 [])
    ["pupil-mobile-v10", "pupil-mobile-v10", "pupil-mobile-v40"] rfl rfl

end Ndsi

namespace Ndsi

/-- Claim C6: for an EXIT event from peer P, the interpreter runs the
callback path with exactly one synthetic Detach event per sensor whose
stored `host_uuid` equals P (each registered callback receiving each such
event, zero events for sensors owned by other peers), and after processing
the Registry holds no entry whose `host_uuid` equals P. -/
theorem C6_exit_detach_per_owned_sensor (node : NetworkNode)
    (gone pn : String) (cs : List Callback)
    (hcb : node.callbacks = Callback.onEvent :: cs)
    (hcs : ∀ c ∈ cs, c ≠ Callback.onEvent)
    (hnd : NodupKeys node.sensors)
    (hwf : ∀ q ∈ node.sensors, RecordWF q.2) :
    handle_event node (exitEv gone pn) =
      Except.ok
        ({ node with sensors := node.sensors.filter (fun q => !(decide (pyGet q.2 "host_uuid" = some gone))) },
          (node.sensors.filter
            (fun q => decide (pyGet q.2 "host_uuid" = some gone))).flatMap
            (fun q => node.callbacks.map (fun cb => (cb, synthetic_detach q.1 q.2))),
          []) ∧
    (∀ q ∈ node.sensors.filter
        (fun q => !(decide (pyGet q.2 "host_uuid" = some gone))),
      ¬(pyGet q.2 "host_uuid" = some gone)) ∧
    (node.callbacks.Nodup →
      ∀ cb ∈ node.callbacks,
        countCb
          ((node.sensors.filter
            (fun q => decide (pyGet q.2 "host_uuid" = some gone))).flatMap
            (fun q => node.callbacks.map (fun cb2 => (cb2, synthetic_detach q.1 q.2))))
          cb =
        (node.sensors.filter
          (fun q => decide (pyGet q.2 "host_uuid" = some gone))).length) := by
  refine ⟨?_, ?_, ?_⟩
  · have hspec := exitLoop_spec gone hcs node.sensors [] node hcb
      (List.nil_append _).symm (by simpa using hnd) hwf
    simp only [handle_event, exitEv, hspec, Except.map, List.nil_append, ← hcb]
  · intro q hq
    have := (List.mem_filter.mp hq).2
    simpa using this
  · intro hndcb cb hmem
    exact countCb_fanout _ node.callbacks
      (fun q => synthetic_detach q.1 q.2) hndcb hmem

/-- Witness for C6: a node holding one sensor owned by `"p1"` and one owned
by `"p2"`; EXIT for `"p1"` produces one synthetic detach delivered to both
callbacks, and only the `"p2"` sensor remains. -/
theorem C6_exit_detach_per_owned_sensor_witness :
    handle_event
        { format := DataFormat.V3,
          sensors :=
            [("u1", [("sensor_name", "cam"), ("host_uuid", "p1"),
              ("host_name", "alpha")]),
             ("u2", [("sensor_name", "mic"), ("host_uuid", "p2"),
              ("host_name", "beta")])],
          callbacks := [Callback.onEvent, Callback.ext 0],
          warned_once_older_version := false,
          warned_once_newer_version := false }
        (exitEv "p1" "gonepeer") =
      Except.ok
        ({ format := DataFormat.V3,
           sensors := [("u2", [("sensor_name", "mic"), ("host_uuid", "p2"),
             ("host_name", "beta")])],
           callbacks := [Callback.onEvent, Callback.ext 0],
           warned_once_older_version := false,
           warned_once_newer_version := false },
          [(Callback.onEvent,
            [("subject", "detach"), ("sensor_uuid", "u1"), ("sensor_name", "cam"),
             ("host_uuid", "p1"), ("host_name", "alpha")]),
           (Callback.ext 0,
            [("subject", "detach"), ("sensor_uuid", "u1"), ("sensor_name", "cam"),
             ("host_uuid", "p1"), ("host_name", "alpha")])],
          []) :=
  (C6_exit_detach_per_owned_sensor
    { format := DataFormat.V3,
      sensors :=
        [("u1", [("sensor_name", "cam"), ("host_uuid", "p1"),
          ("host_name", "alpha")]),
         ("u2", [("sensor_name", "mic"), ("host_uuid", "p2"),
          ("host_name", "beta")])],
      callbacks := [Callback.onEvent, Callback.ext 0],
      warned_once_older_version := false,
      warned_once_newer_version := false }
    "p1" "gonepeer" [Callback.ext 0] rfl (by decide) (by decide) (by decide)).1

/-- Claim C7: two valid attach events for the same `sensor_uuid` with no
intervening detach yield exactly one round of callback invocations — every
registered callback is invoked once, with the first event enriched with the
peer identity — and the Registry holds the first event's record; the second
attach is dropped silently (no registry change, no callback). -/
theorem C7_duplicate_attach_once (node : NetworkNode) (cs : List Callback)
    (m1 m2 : Dict) (u p1 n1 p2 n2 : String)
    (hcb : node.callbacks = Callback.onEvent :: cs)
    (hcs : ∀ c ∈ cs, c ≠ Callback.onEvent)
    (habs : pyGet node.sensors u = none)
    (h1s : pyGet m1 "subject" = some "attach")
    (h1u : pyGet m1 "sensor_uuid" = some u)
    (h2s : pyGet m2 "subject" = some "attach")
    (h2u : pyGet m2 "sensor_uuid" = some u) :
    runEvents node [shoutEv p1 n1 m1, shoutEv p2 n2 m2] =
      Except.ok
        ({ node with sensors := pySet node.sensors u (pyDel (stampHost m1 p1 n1) "subject") },
          node.callbacks.map (fun cb => (cb, stampHost m1 p1 n1)), []) := by
  have h1 := handle_attach_new p1 n1 hcb hcs h1s h1u habs
  have hsuid : pyGet (pyDel (stampHost m1 p1 n1) "subject") "sensor_uuid" =
      some u :=
    (pyGet_del_ne _ (by decide)).trans
      ((stampHost_get_other m1 p1 n1 (by decide) (by decide)).trans h1u)
  have hget1 : pyGet
      ({ node with sensors := pySet node.sensors u (pyDel (stampHost m1 p1 n1) "subject") } :
        NetworkNode).sensors u =
      some (pyDel (stampHost m1 p1 n1) "subject") := pyGet_set_self _ _ _
  have h2 := handle_attach_dup p2 n2 h2s h2u hget1
    (ne_nil_of_pyGet_some hsuid)
  simp only [runEvents, h1, h2, Except.map]
  simp

/-- Witness for C7 at concrete inputs: attaching `"u1"` twice produces one
invocation of each of the two callbacks and a single registry record. -/
theorem C7_duplicate_attach_once_witness :
    runEvents (NetworkNode.init DataFormat.V3 [Callback.ext 0])
        [shoutEv "h1" "alpha"
          [("subject", "attach"), ("sensor_uuid", "u1"), ("sensor_name", "cam")],
         shoutEv "h2" "beta"
          [("subject", "attach"), ("sensor_uuid", "u1"), ("sensor_name", "cam2")]] =
      Except.ok
        ({ format := DataFormat.V3,
           sensors := [("u1",
             [("sensor_uuid", "u1"), ("sensor_name", "cam"),
              ("host_uuid", "h1"), ("host_name", "alpha")])],
           callbacks := [Callback.onEvent, Callback.ext 0],
           warned_once_older_version := false,
           warned_once_newer_version := false },
          [(Callback.onEvent,
            [("subject", "attach"), ("sensor_uuid", "u1"), ("sensor_name", "cam"),
             ("host_uuid", "h1"), ("host_name", "alpha")]),
           (Callback.ext 0,
            [("subject", "attach"), ("sensor_uuid", "u1"), ("sensor_name", "cam"),
             ("host_uuid", "h1"), ("host_name", "alpha")])],
          []) :=
  C7_duplicate_attach_once (NetworkNode.init DataFormat.V3 [Callback.ext 0])
    [Callback.ext 0]
    [("subject", "attach"), ("sensor_uuid", "u1"), ("sensor_name", "cam")]
    [("subject", "attach"), ("sensor_uuid", "u1"), ("sensor_name", "cam2")]
    "u1" "h1" "alpha" "h2" "beta" rfl (by decide) rfl rfl rfl rfl rfl

end Ndsi

namespace Ndsi

/-- Claim C8: opaque metadata round-trips. A valid attach whose payload
carries an extra binding `(k, v)` (any key other than `subject`,
`host_uuid`, `host_name`, which the interpreter itself writes) is stored in
the Registry; a subsequent valid detach for the same uuid delivers to every
callback an event whose payload still maps `k` to `v`, unchanged; afterwards
the Registry is back to its initial state. -/
theorem C8_metadata_roundtrip (node : NetworkNode) (cs : List Callback)
    (m d : Dict) (u k v p1 n1 p2 n2 : String)
    (hcb : node.callbacks = Callback.onEvent :: cs)
    (hcs : ∀ c ∈ cs, c ≠ Callback.onEvent)
    (habs : pyGet node.sensors u = none)
    (hmnd : NodupKeys m)
    (hms : pyGet m "subject" = some "attach")
    (hmu : pyGet m "sensor_uuid" = some u)
    (hk : pyGet m k = some v)
    (hk1 : k ≠ "subject") (hk2 : k ≠ "host_uuid") (hk3 : k ≠ "host_name")
    (hds : pyGet d "subject" = some "detach")
    (hdu : pyGet d "sensor_uuid" = some u) :
    runEvents node [shoutEv p1 n1 m, shoutEv p2 n2 d] =
      Except.ok (node,
        node.callbacks.map (fun cb => (cb, stampHost m p1 n1)) ++
          node.callbacks.map (fun cb =>
            (cb, pyUpdate (stampHost d p2 n2) (pyDel (stampHost m p1 n1) "subject"))),
        []) ∧
    pyGet (pyUpdate (stampHost d p2 n2) (pyDel (stampHost m p1 n1) "subject")) k =
      some v := by
  have hstampnd : NodupKeys (stampHost m p1 n1) := NodupKeys_stampHost _ _ hmnd
  have hstored_nd : NodupKeys (pyDel (stampHost m p1 n1) "subject") :=
    NodupKeys_pyDel _ hstampnd
  have hsub : pyGet (pyDel (stampHost m p1 n1) "subject") "subject" = none :=
    pyGet_del_self _ hstampnd
  have hsuid : pyGet (pyDel (stampHost m p1 n1) "subject") "sensor_uuid" =
      some u :=
    (pyGet_del_ne _ (by decide)).trans
      ((stampHost_get_other m p1 n1 (by decide) (by decide)).trans hmu)
  have hkstored : pyGet (pyDel (stampHost m p1 n1) "subject") k = some v :=
    (pyGet_del_ne _ hk1).trans
      ((stampHost_get_other m p1 n1 hk2 hk3).trans hk)
  have h1 := handle_attach_new p1 n1 hcb hcs hms hmu habs
  have hget1 : pyGet
      ({ node with sensors := pySet node.sensors u (pyDel (stampHost m p1 n1) "subject") } :
        NetworkNode).sensors u =
      some (pyDel (stampHost m p1 n1) "subject") := pyGet_set_self _ _ _
  have hcb1 : ({ node with sensors := pySet node.sensors u (pyDel (stampHost m p1 n1) "subject") } :
      NetworkNode).callbacks = Callback.onEvent :: cs := by
    simp [hcb]
  have h2 := handle_detach_present p2 n2 hcb1 hcs hds hdu
    hget1 (ne_nil_of_pyGet_some hsuid) hstored_nd hsub (Or.inr hsuid)
  have hcancel : pyDel (pySet node.sensors u (pyDel (stampHost m p1 n1) "subject")) u =
      node.sensors := pyDel_set_cancel _ habs
  constructor
  · simp only [runEvents, h1, h2, Except.map, hcancel]
    simp
  · exact pyGet_update_of_some _ hstored_nd hkstored

/-- Witness for C8: attach `"u1"` with metadata `color := red` from peer
`hA`, then detach it from peer `hB`: both callbacks receive a detach payload
still carrying `("color", "red")`, and the registry is empty again. -/
theorem C8_metadata_roundtrip_witness :
    runEvents (NetworkNode.init DataFormat.V3 [Callback.ext 0])
        [shoutEv "hA" "Alpha"
          [("subject", "attach"), ("sensor_uuid", "u1"), ("sensor_name", "cam"),
           ("color", "red")],
         shoutEv "hB" "Beta"
          [("subject", "detach"), ("sensor_uuid", "u1")]] =
      Except.ok (NetworkNode.init DataFormat.V3 [Callback.ext 0],
        [(Callback.onEvent,
          [("subject", "attach"), ("sensor_uuid", "u1"), ("sensor_name", "cam"),
           ("color", "red"), ("host_uuid", "hA"), ("host_name", "Alpha")]),
         (Callback.ext 0,
          [("subject", "attach"), ("sensor_uuid", "u1"), ("sensor_name", "cam"),
           ("color", "red"), ("host_uuid", "hA"), ("host_name", "Alpha")]),
         (Callback.onEvent,
          [("subject", "detach"), ("sensor_uuid", "u1"), ("host_uuid", "hA"),
           ("host_name", "Alpha"), ("sensor_name", "cam"), ("color", "red")]),
         (Callback.ext 0,
          [("subject", "detach"), ("sensor_uuid", "u1"), ("host_uuid", "hA"),
           ("host_name", "Alpha"), ("sensor_name", "cam"), ("color", "red")])],
        []) ∧
    pyGet
      [("subject", "detach"), ("sensor_uuid", "u1"), ("host_uuid", "hA"),
       ("host_name", "Alpha"), ("sensor_name", "cam"), ("color", "red")]
      "color" = some "red" :=
  C8_metadata_roundtrip (NetworkNode.init DataFormat.V3 [Callback.ext 0])
    [Callback.ext 0]
    [("subject", "attach"), ("sensor_uuid", "u1"), ("sensor_name", "cam"),
     ("color", "red")]
    [("subject", "detach"), ("sensor_uuid", "u1")]
    "u1" "color" "red" "hA" "Alpha" "hB" "Beta"
    rfl (by decide) rfl (by decide) rfl rfl rfl (by decide) (by decide)
    (by decide) rfl rfl

/-- Claim C9: `Network.sensor` scans the owned nodes in their fixed
construction order: if no owned node's registry contains the uuid it fails
with the NotFound `ValueError`, and otherwise it delegates to (and returns
the result of) the FIRST node whose registry contains the uuid. -/
theorem C9_sensor_search (net : Network) (u : String) (cbs : List Callback) :
    ((∀ n ∈ net._nodes, pyGet n.sensors u = none) →
      net.sensor u cbs =
        Except.error (PyErr.valueError
          ("\"" ++ u ++ "\" is not an available sensor id."))) ∧
    (∀ (pre : List NetworkNode) (node : NetworkNode) (post : List NetworkNode),
      net._nodes = pre ++ node :: post →
      (∀ n ∈ pre, pyGet n.sensors u = none) →
      (pyGet node.sensors u).isSome = true →
      net.sensor u cbs = node.sensor u cbs) := by
  constructor
  · intro hnone
    rw [Network.sensor]
    exact sensorLoop_not_found u cbs net._nodes hnone
  · intro pre node post hsplit hnone hsome
    rw [Network.sensor, hsplit]
    exact sensorLoop_first u cbs pre node post hnone hsome

/-- Witness for C9: an aggregator whose first node's registry is empty and
whose second node holds `"u1"`; the lookup returns the handle built from the
second node's stored settings (sensor type defaulting to `"unknown"`), and a
lookup for an absent uuid fails with the NotFound `ValueError`. -/
theorem C9_sensor_search_witness :
    Network.sensor
        { _callbacks := [],
          _nodes :=
            [NetworkNode.init DataFormat.V3 [],
             { format := DataFormat.V4,
               sensors := [("u1", [("sensor_name", "cam"), ("host_uuid", "h1"),
                 ("host_name", "alpha")])],
               callbacks := [Callback.onEvent],
               warned_once_older_version := false,
               warned_once_newer_version := false }] }
        "u1" [] =
      Except.ok
        { format := DataFormat.V4, sensor_type := "unknown",
          settings := [("sensor_name", "cam"), ("host_uuid", "h1"),
            ("host_name", "alpha")],
          callbacks := [] } ∧
    Network.sensor
        { _callbacks := [],
          _nodes :=
            [NetworkNode.init DataFormat.V3 [],
             { format := DataFormat.V4,
               sensors := [("u1", [("sensor_name", "cam"), ("host_uuid", "h1"),
                 ("host_name", "alpha")])],
               callbacks := [Callback.onEvent],
               warned_once_older_version := false,
               warned_once_newer_version := false }] }
        "u9" [] =
      Except.error (PyErr.valueError
        ("\"" ++ "u9" ++ "\" is not an available sensor id.")) := by
  constructor
  · exact (C9_sensor_search
      { _callbacks := [],
        _nodes :=
          [NetworkNode.init DataFormat.V3 [],
           { format := DataFormat.V4,
             sensors := [("u1", [("sensor_name", "cam"), ("host_uuid", "h1"),
               ("host_name", "alpha")])],
             callbacks := [Callback.onEvent],
             warned_once_older_version := false,
             warned_once_newer_version := false }] }
      "u1" []).2 [NetworkNode.init DataFormat.V3 []]
      { format := DataFormat.V4,
        sensors := [("u1", [("sensor_name", "cam"), ("host_uuid", "h1"),
          ("host_name", "alpha")])],
        callbacks := [Callback.onEvent],
        warned_once_older_version := false,
        warned_once_newer_version := false } [] rfl (by decide) (by decide)
  · exact (C9_sensor_search
      { _callbacks := [],
        _nodes :=
          [NetworkNode.init DataFormat.V3 [],
           { format := DataFormat.V4,
             sensors := [("u1", [("sensor_name", "cam"), ("host_uuid", "h1"),
               ("host_name", "alpha")])],
             callbacks := [Callback.onEvent],
             warned_once_older_version := false,
             warned_once_newer_version := false }] }
      "u9" []).1 (by decide)

/-- Claim C10 (implicit): for an explicit detach of a sensor present in the
Registry, the event delivered to the callbacks carries the `host_uuid` and
`host_name` stored at attach time: `msg.update(sensor_entry)` overwrites the
stamped identity of the peer that sent the detach, so observers never see
the detaching peer's identity when it differs from the attaching peer's. -/
theorem C10_detach_uses_stored_host (node : NetworkNode) (cs : List Callback)
    (m s : Dict) (u hid hname p pn : String)
    (hcb : node.callbacks = Callback.onEvent :: cs)
    (hcs : ∀ c ∈ cs, c ≠ Callback.onEvent)
    (hent : pyGet node.sensors u = some s)
    (hsnd : NodupKeys s)
    (hssub : pyGet s "subject" = none)
    (hsu : pyGet s "sensor_uuid" = none ∨ pyGet s "sensor_uuid" = some u)
    (hhu : pyGet s "host_uuid" = some hid)
    (hhn : pyGet s "host_name" = some hname)
    (hms : pyGet m "subject" = some "detach")
    (hmu : pyGet m "sensor_uuid" = some u) :
    handle_event node (shoutEv p pn m) =
      Except.ok ({ node with sensors := pyDel node.sensors u },
        node.callbacks.map (fun cb => (cb, pyUpdate (stampHost m p pn) s)), []) ∧
    pyGet (pyUpdate (stampHost m p pn) s) "host_uuid" = some hid ∧
    pyGet (pyUpdate (stampHost m p pn) s) "host_name" = some hname := by
  refine ⟨?_, ?_, ?_⟩
  · exact handle_detach_present p pn hcb hcs hms hmu hent
      (ne_nil_of_pyGet_some hhu) hsnd hssub hsu
  · exact pyGet_update_of_some _ hsnd hhu
  · exact pyGet_update_of_some _ hsnd hhn

/-- Witness for C10: the record for `"u1"` was stored by peer `hA`/`Alpha`;
a detach sent by peer `hB`/`Beta` is delivered carrying `hA`/`Alpha`. -/
theorem C10_detach_uses_stored_host_witness :
    handle_event
        { format := DataFormat.V3,
          sensors := [("u1",
            [("sensor_uuid", "u1"), ("sensor_name", "cam"),
             ("host_uuid", "hA"), ("host_name", "Alpha")])],
          callbacks := [Callback.onEvent, Callback.ext 0],
          warned_once_older_version := false,
          warned_once_newer_version := false }
        (shoutEv "hB" "Beta" [("subject", "detach"), ("sensor_uuid", "u1")]) =
      Except.ok
        ({ format := DataFormat.V3, sensors := [],
           callbacks := [Callback.onEvent, Callback.ext 0],
           warned_once_older_version := false,
           warned_once_newer_version := false },
          [(Callback.onEvent,
            [("subject", "detach"), ("sensor_uuid", "u1"), ("host_uuid", "hA"),
             ("host_name", "Alpha"), ("sensor_name", "cam")]),
           (Callback.ext 0,
            [("subject", "detach"), ("sensor_uuid", "u1"), ("host_uuid", "hA"),
             ("host_name", "Alpha"), ("sensor_name", "cam")])],
          []) ∧
    pyGet
      [("subject", "detach"), ("sensor_uuid", "u1"), ("host_uuid", "hA"),
       ("host_name", "Alpha"), ("sensor_name", "cam")]
      "host_uuid" = some "hA" ∧
    pyGet
      [("subject", "detach"), ("sensor_uuid", "u1"), ("host_uuid", "hA"),
       ("host_name", "Alpha"), ("sensor_name", "cam")]
      "host_name" = some "Alpha" :=
  C10_detach_uses_stored_host
    { format := DataFormat.V3,
      sensors := [("u1",
        [("sensor_uuid", "u1"), ("sensor_name", "cam"),
         ("host_uuid", "hA"), ("host_name", "Alpha")])],
      callbacks := [Callback.onEvent, Callback.ext 0],
      warned_once_older_version := false,
      warned_once_newer_version := false }
    [Callback.ext 0]
    [("subject", "detach"), ("sensor_uuid", "u1")]
    [("sensor_uuid", "u1"), ("sensor_name", "cam"),
     ("host_uuid", "hA"), ("host_name", "Alpha")]
    "u1" "hA" "Alpha" "hB" "Beta"
    rfl (by decide) rfl (by decide) rfl (Or.inr rfl) rfl rfl rfl rfl

end Ndsi
